import Mathlib

/-!
Verification of the AlphaFold3-SeqVisToolkit structural comparison core.

This file gives a shallow embedding, in Lean 4, of the algorithmic core of
the repository (structure loading / representative-atom selection, chain
boundary bookkeeping, region resolution, pairwise distance matrices, the
comparison engine of `contact_map_comparison_multimer.py`, the percentile
scale normalizer, and the track color resolution of `track_utils.py`),
together with theorems settling the claims of the specification about it.

Conventions of the embedding:
* Machine floats are modelled as real numbers (`ℝ`); `np.nan` entries, where
  relevant (the percentile normalizer), are modelled as `Option` values with
  `none` standing for NaN.
* Python exceptions (`raise ValueError(...)`) are modelled as `Except` with a
  dedicated error datatype whose constructors carry the data the message
  interpolates.
* The Biopython SMCRA hierarchy (model → chain → residue → atom) is modelled
  by plain structures; atom 3-D coordinates are a type parameter `α` because
  the loading code never inspects them (the comparison engine instantiates
  `α` with `ℝ × ℝ × ℝ`).
-/

namespace AF3SeqVis

/-! ### Data model: the SMCRA fragment the toolkit reads

`Polypeptide.is_aa(res, standard=True)` is modelled by the field `isStdAA`,
`Polypeptide.is_aa(res, standard=False)` by `isAnyAA`.  Atom names are an
enumeration because the code only ever tests for the CA and the C1-prime
atom name (`AtomName.C1p` stands for the C1-prime name).
-/

/-- Molecule-type tag attached to each representative atom
(`rtype` in both `_load_representative_atoms` functions). -/
inductive RType where
  | Protein
  | DNA
  | RNA
  | Nucleic
  | Ligand
  | Unknown
deriving DecidableEq, Repr

/-- Atom names as far as the toolkit distinguishes them: the code only tests
membership of `"CA"` and of the C1-prime name in a residue. -/
inductive AtomName where
  | CA
  | C1p
  | other (s : String)
deriving DecidableEq, Repr

/-- An atom: a name and a 3-D coordinate (the coordinate type is a
parameter; the loaders never inspect it). -/
structure Atom (α : Type) where
  name : AtomName
  coord : α
deriving DecidableEq, Repr

/-- A residue of the parsed model.  `hetfield`, `resseq`, `icode` are the
three components of the Biopython residue id `res.id`; `isStdAA` models
`Polypeptide.is_aa(res, standard=True)` and `isAnyAA` models
`Polypeptide.is_aa(res, standard=False)`. -/
structure Residue (α : Type) where
  hetfield : String
  resseq : Int
  icode : String
  resname : String
  isStdAA : Bool
  isAnyAA : Bool
  atoms : List (Atom α)
deriving DecidableEq, Repr

/-- A chain: its id and its ordered residue list. -/
structure Chain (α : Type) where
  id : String
  residues : List (Residue α)
deriving DecidableEq, Repr

/-- `Polypeptide.is_aa(res, standard=not include_nonstandard_residue)` as
used by `_load_representative_atoms` in
`contact_map_comparison_multimer.py`. -/
def resIsAA {α : Type} (includeNonstd : Bool) (res : Residue α) : Bool :=
  if includeNonstd then res.isAnyAA else res.isStdAA

/-- Residue-name based tagging of a nucleic residue
(`contact_map_comparison_multimer.py` lines 299-302): DNA for
DA/DT/DG/DC, RNA for A/U/G/C, otherwise the generic nucleic tag. -/
def nucType (rname : String) : RType :=
  if rname ∈ ["DA", "DT", "DG", "DC"] then RType.DNA
  else if rname ∈ ["A", "U", "G", "C"] then RType.RNA
  else RType.Nucleic

/-- Representative-atom selection for one residue, as written in
`contact_map_comparison_multimer.py` lines 282-322 (and, with
`includeNonstd := false`, in `contact_map_visualization_with_track.py`
lines 103-135):

* water residues (`res.id[0] == "W"`) are skipped;
* if `is_aa` holds, the residue contributes its `CA` atom tagged Protein
  when it has one, and otherwise contributes nothing (the `elif`/`else`
  branches are not reached);
* otherwise, if the residue has a C1-prime atom, it contributes that atom
  tagged by `nucType` of the stripped residue name;
* otherwise the first atom of its atom list is contributed tagged Ligand,
  and a residue with no atoms contributes nothing.

`none` means the residue is dropped (`rep_atom` stays `None`). -/
def classifyRes {α : Type} (includeNonstd : Bool) (res : Residue α) :
    Option (Atom α × RType) :=
  if res.hetfield = "W" then none
  else if resIsAA includeNonstd res then
    match res.atoms.find? (fun a => a.name = AtomName.CA) with
    | some a => some (a, RType.Protein)
    | none => none
  else
    match res.atoms.find? (fun a => a.name = AtomName.C1p) with
    | some a => some (a, nucType res.resname.trim)
    | none =>
      match res.atoms with
      | [] => none
      | a :: _ => some (a, RType.Ligand)

/-- Per-residue metadata recorded alongside each representative atom
(`all_info.append({...})`, lines 315-321). -/
structure ResInfo where
  chain : String
  resname : String
  resseq : Int
  icode : String
  rtype : RType
deriving DecidableEq, Repr

/-- One loaded record: the chosen representative atom plus its metadata. -/
def RepRec (α : Type) := Atom α × ResInfo

instance {α : Type} [DecidableEq α] : DecidableEq (RepRec α) := by
  unfold RepRec; infer_instance

/-- The records one chain contributes, in residue order (the body of the
`for res in chain` loop, lines 282-322). -/
def chainRecords {α : Type} (includeNonstd : Bool) (ch : Chain α) :
    List (RepRec α) :=
  ch.residues.filterMap (fun res =>
    (classifyRes includeNonstd res).map (fun at_ =>
      (at_.1, ⟨ch.id, res.resname, res.resseq, res.icode, at_.2⟩)))

/-- A chain boundary entry `(chain_id, start_idx, end_idx)`, inclusive and
0-based, as appended at line 326. -/
def BEntry := String × Nat × Nat

instance : DecidableEq BEntry := by unfold BEntry; infer_instance

/-- The error taxonomy of the core.  Every constructor models one
`raise ValueError(...)` site; the fields carry the data interpolated into
the message.  The names of the specification: `StructureLoadError` covers
`chainNotFound` and `noAtoms`, `SequenceLengthMismatchError` is
`seqLenMismatch` (carrying the offending chain pair and both lengths),
`InvalidRegionError` is `invalidRegion`, `RegionOutOfBoundsError` is
`regionOutOfBounds`, and the remaining constructors cover the other raise
sites of `contact_map_diff_multimer`. -/
inductive CompareError where
  | chainCountMismatch (na nb : Nat)
  | chainNotFound (chainId : String)
  | noAtoms
  | boundaryCountMismatch
  | seqLenMismatch (chainA chainB : String) (lenA lenB : Int)
  | residueCountMismatch (na nb : Nat)
  | invalidRegion
  | regionOutOfBounds (r : Int × Int) (n : Nat)
  | emptySubMatrix (ra rb : Int × Int)
deriving DecidableEq, Repr

/-- `model_chains` lookup (`{chain.id: chain for chain in model}` followed by
`model_chains[target_chain_id]`, lines 272-279); chain ids of a Biopython
model are unique, so `find?` is the dictionary lookup. -/
def findChain {α : Type} (model : List (Chain α)) (tid : String) :
    Option (Chain α) :=
  model.find? (fun c => c.id = tid)

/-- The chain loop of `_load_representative_atoms`
(`contact_map_comparison_multimer.py` lines 275-328), carrying
`current_idx`: for each target chain id in the order given by the caller, fail if the
model lacks it, otherwise append the records of the chain and, when at least one
record survived, the boundary entry `(tid, chain_start_idx, current_idx-1)`
(a chain contributing nothing only prints a warning and gets no entry). -/
def loadAux {α : Type} (model : List (Chain α)) (includeNonstd : Bool) :
    List String → Nat → Except CompareError (List (RepRec α) × List BEntry)
  | [], _ => .ok ([], [])
  | tid :: rest, idx =>
    match findChain model tid with
    | none => .error (.chainNotFound tid)
    | some ch =>
      let recs := chainRecords includeNonstd ch
      let n := recs.length
      match loadAux model includeNonstd rest (idx + n) with
      | .error e => .error e
      | .ok (recs2, bnds2) =>
        .ok (recs ++ recs2,
          (if n = 0 then ([] : List BEntry) else [(tid, idx, idx + n - 1)])
            ++ bnds2)

/-- `_load_representative_atoms` of `contact_map_comparison_multimer.py`
(lines 237-333): run the chain loop from index 0 and fail with the
no-valid-atoms error when nothing at all was loaded (line 330-331). -/
def load_representative_atoms {α : Type} (model : List (Chain α))
    (targets : List String) (includeNonstd : Bool) :
    Except CompareError (List (RepRec α) × List BEntry) :=
  match loadAux model includeNonstd targets 0 with
  | .error e => .error e
  | .ok (recs, bnds) =>
    if recs.isEmpty then .error .noAtoms else .ok (recs, bnds)

/-! ### The single-structure visualization loader

`_load_representative_atoms` of `contact_map_visualization_with_track.py`
(lines 80-149).  It differs from the comparison loader: it iterates the
chains of the model in model order, silently skipping chains not in the
requested set, always classifies with `standard=True`
(`classifyRes false`), and fails only when no representative atom at all
was collected.
-/

/-- One record of the visualization loader: coordinate, chain label,
molecule type and (1-based) residue sequence number, mirroring the four
parallel lists `coords`, `chain_labels`, `res_types`, `res_ids`. -/
structure VisRec (α : Type) where
  coord : α
  chainId : String
  rtype : RType
  resseq : Int
deriving DecidableEq, Repr

/-- The records one chain contributes on the visualization path (the inner
`for res in chain` loop, lines 103-142); classification is `classifyRes`
with `standard=True`, i.e. `includeNonstd := false`. -/
def visChainRecords {α : Type} (ch : Chain α) : List (VisRec α) :=
  ch.residues.filterMap (fun res =>
    (classifyRes false res).map (fun at_ =>
      ⟨at_.1.coord, ch.id, at_.2, res.resseq⟩))

/-- The target-chain filter (lines 92-100): `None` means all chains;
otherwise membership in the normalized set of requested ids. -/
def visTargetAllows (targets : Option (List String)) (cid : String) : Bool :=
  match targets with
  | none => true
  | some ts => cid ∈ ts

/-- All records collected by the visualization loader, in model order
(lines 99-142): chains not in the target set are skipped with no error. -/
def visCollect {α : Type} (model : List (Chain α))
    (targets : Option (List String)) : List (VisRec α) :=
  (model.map (fun ch =>
    if visTargetAllows targets ch.id then visChainRecords ch else [])).flatten

/-- `sorted(list(found_chains))` (line 149): the ids of the chains that
contributed at least one record, deduplicated and sorted. -/
def visFoundChains {α : Type} (model : List (Chain α))
    (targets : Option (List String)) : List String :=
  (((model.filter (fun ch =>
      visTargetAllows targets ch.id && !(visChainRecords ch).isEmpty)).map
        (fun ch => ch.id)).eraseDups).insertionSort (· ≤ ·)

/-- `_load_representative_atoms` of
`contact_map_visualization_with_track.py` (lines 80-149): collect the
records, fail (`ValueError`, lines 144-147) only when nothing was
collected, and otherwise return them with the sorted found-chain list. -/
def vis_load_representative_atoms {α : Type} (model : List (Chain α))
    (targets : Option (List String)) :
    Except CompareError (List (VisRec α) × List String) :=
  let recs := visCollect model targets
  if recs.isEmpty then .error .noAtoms
  else .ok (recs, visFoundChains model targets)

/-! ### The region resolver

`_parse_region` and `_parse_region_pairs` inside `contact_map_diff_multimer`
(`contact_map_comparison_multimer.py` lines 104-146).  A region argument is
either a two-int tuple/list, a plain `"s:e"`/`"s-e"` string, or a
chain-qualified `"chain:s:e"`/`"chain:s-e"` string; the inductive below is
the abstract syntax of these three shapes (`sepColon` records which
separator the string used).
-/

/-- Abstract syntax of one region argument. -/
inductive RegionInput where
  | pair (s e : Int)
  | str (sepColon : Bool) (s e : Int)
  | qualified (chain : String) (sepColon : Bool) (s e : Int)
deriving DecidableEq, Repr

/-- `next((b for b in boundaries if b[0] == chain_id), None)` (line 116):
the first boundary entry of the given chain id. -/
def lookupBoundary (bnds : List BEntry) (cid : String) : Option BEntry :=
  bnds.find? (fun b => b.1 = cid)

/-- `_parse_region` (lines 104-132).  For a chain-qualified string the code
splits on the first colon, looks the prefix up in the boundary index and,
when found, adds the start offset of that chain to both endpoints of the
remaining plain region; when the prefix is not a known chain (or no
boundary index was supplied) the whole string reaches the numeric parse
and `int()` raises `ValueError`, modelled as `invalidRegion`.  The
`end < start` check (lines 130-131) happens on the endpoints before the
offset is added. -/
def _parse_region (boundaries : Option (List BEntry)) :
    RegionInput → Except CompareError (Int × Int)
  | .pair s e => if e < s then .error .invalidRegion else .ok (s, e)
  | .str _ s e => if e < s then .error .invalidRegion else .ok (s, e)
  | .qualified cid _ s e =>
    match boundaries with
    | none => .error .invalidRegion
    | some bnds =>
      match lookupBoundary bnds cid with
      | some b =>
        if e < s then .error .invalidRegion
        else .ok (s + (b.2.1 : Int), e + (b.2.1 : Int))
      | none => .error .invalidRegion

/-- `_parse_region_pairs` (lines 135-146): split a `"r1,r2"` pair string on
the first comma (a string with no comma raises, which the abstract syntax
below rules out) and resolve both halves with the same boundary index. -/
def _parse_region_pairs (boundaries : Option (List BEntry))
    (l r : RegionInput) : Except CompareError ((Int × Int) × (Int × Int)) :=
  match _parse_region boundaries l with
  | .error e => .error e
  | .ok r1 =>
    match _parse_region boundaries r with
    | .error e => .error e
    | .ok r2 => .ok (r1, r2)

/-- The `region_pairs` argument: either a list of pair strings (resolved
with the boundary index of structure A for both halves, line 382) or a
list of region tuples (first half resolved against A, second against B,
line 384).  The Python code dispatches on the type of the first element;
the two constructors keep the two homogeneous shapes apart. -/
inductive RegionPairsInput where
  | strs (ps : List (RegionInput × RegionInput))
  | tups (ps : List (RegionInput × RegionInput))
deriving DecidableEq, Repr

/-- Region resolution of `contact_map_diff_multimer` (lines 374-395),
returning the resolved pair list together with the `is_default_region`
flag (line 375).  `if region_pairs:` is Python truthiness: `None` and an
empty list both fall through to the `region_1` logic.  When neither
`region_pairs` nor `region_1` is given the engine defaults to the full
flattened structure against itself and sets the flag (lines 388-390);
when only `region_1` is given it is duplicated (line 394). -/
def resolveRegionPairs (regionPairs : Option RegionPairsInput)
    (region1 region2 : Option RegionInput)
    (bndA bndB : List BEntry) (N : Nat) :
    Except CompareError (List ((Int × Int) × (Int × Int)) × Bool) :=
  match regionPairs with
  | some (.strs (p :: ps)) =>
    match ((p :: ps).mapM (fun q => _parse_region_pairs (some bndA) q.1 q.2) :
        Except CompareError (List ((Int × Int) × (Int × Int)))) with
    | .error e => .error e
    | .ok pairs => .ok (pairs, false)
  | some (.tups (p :: ps)) =>
    match ((p :: ps).mapM (fun q =>
        match _parse_region (some bndA) q.1 with
        | .error e => Except.error e
        | .ok r1 =>
          match _parse_region (some bndB) q.2 with
          | .error e => Except.error e
          | .ok r2 => Except.ok (r1, r2)) :
        Except CompareError (List ((Int × Int) × (Int × Int)))) with
    | .error e => .error e
    | .ok pairs => .ok (pairs, false)
  | _ =>
    match region1 with
    | none => .ok ([((0, (N : Int) - 1), (0, (N : Int) - 1))], true)
    | some r1 =>
      match _parse_region (some bndA) r1 with
      | .error e => .error e
      | .ok rv1 =>
        match region2 with
        | none => .ok ([(rv1, rv1)], false)
        | some r2 =>
          match _parse_region (some bndB) r2 with
          | .error e => .error e
          | .ok rv2 => .ok ([(rv1, rv2)], false)

/-- Region bounds validation (lines 400-403): every endpoint of every
resolved region must lie in `[0, N-1]` (0-based). -/
def checkRegionBounds :
    List ((Int × Int) × (Int × Int)) → Nat → Except CompareError Unit
  | [], _ => .ok ()
  | (ra, rb) :: rest, N =>
    if ra.1 < 0 ∨ ra.2 > (N : Int) - 1 then .error (.regionOutOfBounds ra N)
    else if rb.1 < 0 ∨ rb.2 > (N : Int) - 1 then .error (.regionOutOfBounds rb N)
    else checkRegionBounds rest N

/-! ### The distance engine -/

/-- A 3-D coordinate. -/
abbrev V3 := ℝ × ℝ × ℝ

/-- Componentwise difference of two coordinates (the broadcast
`ca_coords[:, None, :] - ca_coords[None, :, :]`, line 345). -/
def vsub (p q : V3) : V3 := (p.1 - q.1, p.2.1 - q.2.1, p.2.2 - q.2.2)

/-- `np.sum(diff * diff, axis=-1)` for one entry (line 346). -/
def sumsq (v : V3) : ℝ := v.1 * v.1 + v.2.1 * v.2.1 + v.2.2 * v.2.2

/-- `_pairwise_dist` (lines 337-346): entry `(i, j)` of the pairwise
Euclidean distance matrix of the given coordinate list (out-of-range
indices read the origin; the engine only uses indices below the length). -/
noncomputable def _pairwise_dist (cs : List V3) (i j : Nat) : ℝ :=
  Real.sqrt (sumsq (vsub (cs.getD i (0, 0, 0)) (cs.getD j (0, 0, 0))))

/-- The Euclidean norm of a 3-D vector (the quantity the specification
calls `‖coord_i − coord_j‖`). -/
noncomputable def euclNorm (v : V3) : ℝ :=
  Real.sqrt (v.1 ^ 2 + v.2.1 ^ 2 + v.2.2 ^ 2)

/-- The embedding of a coordinate into `EuclideanSpace ℝ (Fin 3)`, used to
relate `_pairwise_dist` to the Euclidean distance of Mathlib. -/
noncomputable def toE (v : V3) : EuclideanSpace ℝ (Fin 3) :=
  ![v.1, v.2.1, v.2.2]

/-! ### Per-region-pair details and the comparison engine -/

/-- `np.nanmean` of a `rows × cols` sub-matrix; the distance and difference
matrices of the engine contain no NaN, so this is the plain mean. -/
noncomputable def matMean (M : Nat → Nat → ℝ) (rows cols : Nat) : ℝ :=
  (∑ i ∈ Finset.range rows, ∑ j ∈ Finset.range cols, M i j) /
    ((rows : ℝ) * (cols : ℝ))

/-- One entry of the `Pairs_detail` list (lines 750-761): the four sliced
sub-matrices, the shape of the A-slice, and the four means. -/
structure PairDetail where
  pair : (Int × Int) × (Int × Int)
  A_sub : Nat → Nat → ℝ
  B_sub : Nat → Nat → ℝ
  AB_sub : Nat → Nat → ℝ
  BA_sub : Nat → Nat → ℝ
  shape : Nat × Nat
  mean_A_sub : ℝ
  mean_B_sub : ℝ
  mean_AB_sub : ℝ
  mean_BA_sub : ℝ

/-- Construction of one detail entry (lines 741-761).  With
`(a_s, a_e) = ra` and `(b_s, b_e) = rb`: `A_sub`, `B_sub` and `AB_sub` are
the `[a_s:a_e+1, b_s:b_e+1]` slices of `dist_a`, `dist_b` and `diff_ab`,
while `BA_sub` is the `[b_s:b_e+1, a_s:a_e+1]` slice of `diff_ba`
(line 747); the means are `np.nanmean` over the respective shapes.  The
engine validates `0 ≤ a_s` and `a_s ≤ a_e` before slicing, under which
`Int.toNat` is exact and matches numpy slicing. -/
noncomputable def pairDetail (dist_a dist_b diff_ab diff_ba : Nat → Nat → ℝ)
    (ra rb : Int × Int) : PairDetail :=
  let aS := ra.1.toNat
  let bS := rb.1.toNat
  let lenA := (ra.2 + 1 - ra.1).toNat
  let lenB := (rb.2 + 1 - rb.1).toNat
  let subA := fun i j => dist_a (aS + i) (bS + j)
  let subB := fun i j => dist_b (aS + i) (bS + j)
  let subAB := fun i j => diff_ab (aS + i) (bS + j)
  let subBA := fun i j => diff_ba (bS + i) (aS + j)
  { pair := (ra, rb)
    A_sub := subA
    B_sub := subB
    AB_sub := subAB
    BA_sub := subBA
    shape := (lenA, lenB)
    mean_A_sub := matMean subA lenA lenB
    mean_B_sub := matMean subB lenA lenB
    mean_AB_sub := matMean subAB lenA lenB
    mean_BA_sub := matMean subBA lenB lenA }

/-- The detail loop (lines 740-762): build one `PairDetail` per resolved
region pair, failing when a slice is empty (`sub_a.size == 0`,
lines 748-749). -/
noncomputable def mkDetails (dist_a dist_b diff_ab diff_ba : Nat → Nat → ℝ) :
    List ((Int × Int) × (Int × Int)) → Except CompareError (List PairDetail)
  | [] => .ok []
  | (ra, rb) :: rest =>
    let d := pairDetail dist_a dist_b diff_ab diff_ba ra rb
    if d.shape.1 * d.shape.2 = 0 then .error (.emptySubMatrix ra rb)
    else
      match mkDetails dist_a dist_b diff_ab diff_ba rest with
      | .error e => .error e
      | .ok ds => .ok (d :: ds)

/-- Chain-pair length `end - start + 1` (lines 358-359). -/
def blen (b : BEntry) : Int := (b.2.2 : Int) - (b.2.1 : Int) + 1

/-- The per-chain-pair length validation (lines 357-361): walk the zipped
boundary lists in order and fail at the first pair whose residue counts
differ, naming the offending chain pair and both lengths
(`SequenceLengthMismatchError` of the specification). -/
def validateChainPairs :
    List (BEntry × BEntry) → Except CompareError Unit
  | [] => .ok ()
  | (ba, bb) :: rest =>
    if blen ba ≠ blen bb then
      .error (.seqLenMismatch ba.1 bb.1 (blen ba) (blen bb))
    else validateChainPairs rest

/-- The summary `result` of the engine (lines 719-762), minus the two input
file paths (pure I/O naming).  `A_N`/`B_N` are `N_res`, `A_dist`/`B_dist`
the `dist_matrix` entries, `A_info`/`B_info` the `res_ca_info` lists,
`diff_AB`/`diff_BA` the `Dist_diff` entries, and `details` is
`Pairs_detail`. -/
structure CompareResult where
  A_N : Nat
  B_N : Nat
  A_dist : Nat → Nat → ℝ
  B_dist : Nat → Nat → ℝ
  A_info : List ResInfo
  B_info : List ResInfo
  diff_AB : Nat → Nat → ℝ
  diff_BA : Nat → Nat → ℝ
  pairs : List ((Int × Int) × (Int × Int))
  details : List PairDetail

/-- The keys of the `result` dictionary the engine builds and returns
(lines 719-737 and 762): exactly these five, in insertion order. -/
def contact_result_keys : List String :=
  ["A", "B", "Dist_diff", "pairs", "Pairs_detail"]

/-- The comparison engine `contact_map_diff_multimer`
(`contact_map_comparison_multimer.py` lines 22-766), restricted to its
computational core: the output-path naming, all plotting, and the figure
saving are pure I/O and are omitted; the `vmax`/`vdiff` scale bounds
(lines 417-430) feed only the plots and are modelled separately by
`vmaxUse`/`vdiffUse` below.  The stages, in source order:

1. chain-count check (lines 97-100);
2. both structure loads (lines 349-350);
3. non-empty-chain count check (lines 354-355);
4. per-chain-pair length validation (lines 357-361) — this runs before
   `_pairwise_dist` is ever applied;
5. total residue-count check (lines 367-371);
6. region resolution (lines 374-395) and bounds check (lines 400-403);
7. distance and difference matrices (lines 406-409);
8. the per-pair details and the summary result (lines 719-762).

The Python function returns the result dictionary only when
`return_maxtrix` is set and `None` otherwise; the embedding always
returns the dictionary it builds. -/
noncomputable def contact_map_diff_multimer
    (modelA modelB : List (Chain V3))
    (chainsA chainsB : List String)
    (region1 region2 : Option RegionInput)
    (regionPairs : Option RegionPairsInput)
    (includeNonstd : Bool) :
    Except CompareError CompareResult :=
  if chainsA.length ≠ chainsB.length then
    .error (.chainCountMismatch chainsA.length chainsB.length)
  else
    match load_representative_atoms modelA chainsA includeNonstd with
    | .error e => .error e
    | .ok (recsA, bndA) =>
      match load_representative_atoms modelB chainsB includeNonstd with
      | .error e => .error e
      | .ok (recsB, bndB) =>
        if bndA.length ≠ bndB.length then .error .boundaryCountMismatch
        else
          match validateChainPairs (bndA.zip bndB) with
          | .error e => .error e
          | .ok _ =>
            if recsA.length ≠ recsB.length then
              .error (.residueCountMismatch recsA.length recsB.length)
            else
              let N := recsA.length
              match resolveRegionPairs regionPairs region1 region2
                  bndA bndB N with
              | .error e => .error e
              | .ok (pairs, _isDefaultRegion) =>
                match checkRegionBounds pairs N with
                | .error e => .error e
                | .ok _ =>
                  let dist_a :=
                    _pairwise_dist (recsA.map (fun r => r.1.coord))
                  let dist_b :=
                    _pairwise_dist (recsB.map (fun r => r.1.coord))
                  let diff_ab := fun i j => dist_a i j - dist_b i j
                  let diff_ba := fun i j => -(dist_a i j - dist_b i j)
                  match mkDetails dist_a dist_b diff_ab diff_ba pairs with
                  | .error e => .error e
                  | .ok details =>
                    .ok { A_N := recsA.length
                          B_N := recsB.length
                          A_dist := dist_a
                          B_dist := dist_b
                          A_info := recsA.map (fun r => r.2)
                          B_info := recsB.map (fun r => r.2)
                          diff_AB := diff_ab
                          diff_BA := diff_ba
                          pairs := pairs
                          details := details }

/-! ### The scale normalizer

`np.nanpercentile` with the default linear interpolation, and the
`vmax`/`vdiff` selection of lines 417-430.  NaN entries are `none`; the
percentile is computed over the sorted valid entries `v` at fractional
index `h = (len(v)-1) * p / 100` as `v[⌊h⌋] + (h-⌊h⌋) * (v[⌊h⌋+1] - v[⌊h⌋])`
with the upper index clipped to the last element.  Stated over any linear
ordered field with a floor so that both `ℝ` (the code) and `ℚ`
(executable witnesses) instantiate it. -/

/-- `np.nanpercentile(xs, p)`: ignore the `none` (NaN) entries, sort the
rest, and linearly interpolate at fractional index `(n-1) * p / 100`
(numpy returns NaN on an all-NaN input; the embedding returns 0 there,
a case none of the theorems touch). -/
def nanpercentile {α : Type} [LinearOrderedField α] [FloorRing α]
    (xs : List (Option α)) (p : α) : α :=
  let v := (xs.filterMap id).insertionSort (· ≤ ·)
  let n := v.length
  if n = 0 then 0
  else
    let h : α := ((n : α) - 1) * p / 100
    let k : Nat := (⌊h⌋).toNat
    let k2 : Nat := min (k + 1) (n - 1)
    v.getD k 0 + (h - (⌊h⌋ : α)) * (v.getD k2 0 - v.getD k 0)

/-- The single-display-range bound (lines 417-423): an explicit `vmax`
wins; otherwise the max of the two per-matrix percentiles. -/
def vmaxUse {α : Type} [LinearOrderedField α] [FloorRing α]
    (vmax : Option α) (p : α) (distA distB : List (Option α)) : α :=
  match vmax with
  | some v => v
  | none => max (nanpercentile distA p) (nanpercentile distB p)

/-- The zero-centered difference bound (lines 426-430): an explicit `vdiff`
wins; otherwise the percentile of the absolute values of the concatenated
difference matrices (`np.abs` maps NaN to NaN, hence `Option.map`). -/
def vdiffUse {α : Type} [LinearOrderedField α] [FloorRing α]
    (vdiff : Option α) (p : α) (diffAB diffBA : List (Option α)) : α :=
  match vdiff with
  | some v => v
  | none =>
    nanpercentile ((diffAB ++ diffBA).map (Option.map (fun x => |x|))) p

/-! ### Track color resolution (`utils/track_utils.py`)

The value column of one BED row either parses as a number or not
(`pd.to_numeric(..., errors="raise")`); `BedVal.num` models the first
case and `BedVal.text` a string that does not parse numerically.
-/

/-- One raw value of the BED value column. -/
inductive BedVal where
  | num (x : ℚ)
  | text (s : String)
deriving DecidableEq, Repr

/-- `str(raw_val)` as used to collect categories (line 101); the exact
float formatting of Python is irrelevant to the claims, only the identity
on genuine strings matters. -/
def bedValStr : BedVal → String
  | .num x => toString x
  | .text s => s

/-- The value-type auto-detection of `parse_bed_to_track_data`
(lines 168-173): `"numerical"` when every value parses numerically,
`"categorical"` otherwise.  These two strings are the only values this
function ever produces. -/
def trackValType (vals : List BedVal) : String :=
  if vals.all (fun v => match v with | .num _ => true | .text _ => false)
  then "numerical" else "categorical"

/-- A per-track color configuration as it reaches `_process_group`: a
single string (literal color or colormap name), an explicit
category-to-color mapping, or `None`. -/
inductive TrackColor where
  | name (s : String)
  | perCat (m : List (String × String))
  | noColor
deriving DecidableEq, Repr

/-- The color-resolution block of `_process_group` (`track_utils.py`
lines 114-141), verbatim: the category-palette generation runs only under
`track_val_type == "str"`; in every other case `final_color` is the
incoming `track_color` unchanged.  `getCmap name` models
`plt.get_cmap(name, n)` — `none` for an unknown colormap name
(`ValueError`), `some f` with `f n i` the hex of sample `i` of `n`
otherwise; `"tab10"` is a built-in colormap, so the fallback lookup is
modelled as total via `getD`. -/
def processGroupColor (getCmap : String → Option (Nat → Nat → String))
    (valType : String) (trackColor : TrackColor) (cats : List String) :
    TrackColor :=
  if valType = "str" then
    let uniqueCats := (cats.eraseDups).insertionSort (· ≤ ·)
    match trackColor with
    | .perCat m => .perCat m
    | other =>
      let cmapName := match other with | .name s => s | _ => "tab10"
      let sample :=
        match getCmap cmapName with
        | some f => f
        | none => (getCmap "tab10").getD (fun _ _ => "")
      .perCat (uniqueCats.mapIdx (fun i cat =>
        (cat, sample uniqueCats.length i)))
  else trackColor

/-- The per-track color selection of `parse_bed_to_track_data`
(lines 175-204): a per-track entry in a dict config wins; otherwise a
string config is passed through for categorical tracks, while for
numerical tracks a recognized colormap name is replaced by the indexed
default palette and an unrecognized one is kept as a forced single color;
a dict config without an entry (or no config) falls back to the default
palette.  `validCmap` models `color in plt.colormaps()` and
`defaultPalette i` models `to_hex(default_palette(i))`. -/
def thisTrackColor (validCmap : String → Bool)
    (defaultPalette : Nat → String)
    (color : Option (Sum String (List (String × TrackColor))))
    (trackName : String) (valType : String) (i : Nat) : TrackColor :=
  let fromDict : Option TrackColor :=
    match color with
    | some (.inr m) => (m.find? (fun kv => kv.1 = trackName)).map
        (fun kv => kv.2)
    | _ => none
  match fromDict with
  | some tc => tc
  | none =>
    match color with
    | some (.inl s) =>
      if valType = "categorical" then .name s
      else if validCmap s then .name (defaultPalette i) else .name s
    | _ => .name (defaultPalette i)

/-- The per-pair detail entry exactly as the engine builds it (lines
406-409 define the four matrices from the two coordinate lists, and
lines 741-761 slice them): `pairDetail` applied to the two pairwise
distance matrices and the forward/backward difference matrices. -/
noncomputable def enginePairDetail (csA csB : List V3) (ra rb : Int × Int) :
    PairDetail :=
  pairDetail (_pairwise_dist csA) (_pairwise_dist csB)
    (fun i j => _pairwise_dist csA i j - _pairwise_dist csB i j)
    (fun i j => -(_pairwise_dist csA i j - _pairwise_dist csB i j)) ra rb

/-! ## Helper lemmas -/

/-- The pairwise distance matrix is symmetric in its two indices. -/
lemma pairwise_dist_symm (cs : List V3) (i j : Nat) :
    _pairwise_dist cs i j = _pairwise_dist cs j i := by
  unfold _pairwise_dist
  congr 1
  simp only [sumsq, vsub]
  ring

/-! ## Claims -/

/-- C4: for every coordinate list, the `_pairwise_dist` matrix has a zero
diagonal, is symmetric, and its `(i, j)` entry is the Euclidean norm of
`coord_i − coord_j` (also witnessed against the Euclidean distance of
Mathlib via `toE`), hence non-negative — for all indices in range. -/
theorem C4_distance_matrix_props (cs : List V3) (i j : Nat)
    (_hi : i < cs.length) (_hj : j < cs.length) :
    _pairwise_dist cs i i = 0
    ∧ _pairwise_dist cs i j = _pairwise_dist cs j i
    ∧ _pairwise_dist cs i j
        = euclNorm (vsub (cs.getD i (0, 0, 0)) (cs.getD j (0, 0, 0)))
    ∧ _pairwise_dist cs i j
        = dist (toE (cs.getD i (0, 0, 0))) (toE (cs.getD j (0, 0, 0)))
    ∧ 0 ≤ _pairwise_dist cs i j := by
  refine ⟨?_, pairwise_dist_symm cs i j, ?_, ?_, Real.sqrt_nonneg _⟩
  · simp [_pairwise_dist, vsub, sumsq]
  · unfold _pairwise_dist euclNorm
    congr 1
    simp only [sumsq, vsub]
    ring
  · rw [EuclideanSpace.dist_eq]
    unfold _pairwise_dist
    congr 1
    simp only [toE, sumsq, vsub, Fin.sum_univ_three, Real.dist_eq, sq_abs,
      Matrix.cons_val_zero, Matrix.cons_val_one, Matrix.head_cons,
      Matrix.cons_val_two, Matrix.tail_cons]
    ring

/-- Witness for C4 at the concrete coordinate list
`[(0,0,0), (3,4,0)]` with `i = 0`, `j = 1`. -/
theorem C4_distance_matrix_props_witness :
    (0 < ([((0 : ℝ), 0, 0), (3, 4, 0)] : List V3).length)
    ∧ (1 < ([((0 : ℝ), 0, 0), (3, 4, 0)] : List V3).length)
    ∧ (_pairwise_dist [((0 : ℝ), 0, 0), (3, 4, 0)] 0 0 = 0
      ∧ _pairwise_dist [((0 : ℝ), 0, 0), (3, 4, 0)] 0 1
          = _pairwise_dist [((0 : ℝ), 0, 0), (3, 4, 0)] 1 0
      ∧ _pairwise_dist [((0 : ℝ), 0, 0), (3, 4, 0)] 0 1
          = euclNorm (vsub (([((0 : ℝ), 0, 0), (3, 4, 0)] : List V3).getD 0 (0, 0, 0))
              (([((0 : ℝ), 0, 0), (3, 4, 0)] : List V3).getD 1 (0, 0, 0)))
      ∧ _pairwise_dist [((0 : ℝ), 0, 0), (3, 4, 0)] 0 1
          = dist (toE (([((0 : ℝ), 0, 0), (3, 4, 0)] : List V3).getD 0 (0, 0, 0)))
              (toE (([((0 : ℝ), 0, 0), (3, 4, 0)] : List V3).getD 1 (0, 0, 0)))
      ∧ 0 ≤ _pairwise_dist [((0 : ℝ), 0, 0), (3, 4, 0)] 0 1) :=
  ⟨by simp, by simp,
    C4_distance_matrix_props [((0 : ℝ), 0, 0), (3, 4, 0)] 0 1
      (by simp) (by simp)⟩

/-- C3: for a chain-qualified region with a chain that has an entry in the
boundary index and `s ≤ e`, `_parse_region` returns the pair of endpoints
shifted by the start index of that chain (chain-qualified positions are
0-based offsets within the chain). -/
theorem C3_chain_qualified_region (bnds : List BEntry) (cid : String)
    (sepColon : Bool) (s e : Int) (b : BEntry)
    (hfound : lookupBoundary bnds cid = some b) (hse : s ≤ e) :
    _parse_region (some bnds) (.qualified cid sepColon s e)
      = .ok ((b.2.1 : Int) + s, (b.2.1 : Int) + e) := by
  simp only [_parse_region, hfound]
  rw [if_neg (by omega)]
  rw [Int.add_comm s, Int.add_comm e]

/-- Witness for C3: `"B:5:10"` against a boundary index in which chain B
starts at flattened index 50 resolves to `(55, 60)`. -/
theorem C3_chain_qualified_region_witness :
    (lookupBoundary [("A", 0, 49), ("B", 50, 99)] "B" = some ("B", 50, 99))
    ∧ ((5 : Int) ≤ 10)
    ∧ _parse_region (some [("A", 0, 49), ("B", 50, 99)])
        (.qualified "B" true 5 10)
        = .ok (((("B", 50, 99) : BEntry).2.1 : Int) + 5,
               (((("B", 50, 99) : BEntry).2.1 : Int) + 10)) :=
  ⟨by decide, by decide,
    C3_chain_qualified_region [("A", 0, 49), ("B", 50, 99)] "B" true 5 10
      ("B", 50, 99) (by decide) (by decide)⟩

/-- C10: in every per-pair detail entry built by the engine, the
`B-A_sub` slice is the element-wise negation of the transpose of the
`A-B_sub` slice, and consequently its mean is the negation of the
latter one. -/
theorem C10_BA_sub_neg_transpose (csA csB : List V3) (ra rb : Int × Int) :
    (∀ i j, (enginePairDetail csA csB ra rb).BA_sub i j
        = -((enginePairDetail csA csB ra rb).AB_sub j i))
    ∧ (enginePairDetail csA csB ra rb).mean_BA_sub
        = -(enginePairDetail csA csB ra rb).mean_AB_sub := by
  have hentry : ∀ i j, -(_pairwise_dist csA (rb.1.toNat + i) (ra.1.toNat + j)
        - _pairwise_dist csB (rb.1.toNat + i) (ra.1.toNat + j))
      = -(_pairwise_dist csA (ra.1.toNat + j) (rb.1.toNat + i)
        - _pairwise_dist csB (ra.1.toNat + j) (rb.1.toNat + i)) := by
    intro i j
    rw [pairwise_dist_symm csA, pairwise_dist_symm csB]
  constructor
  · intro i j
    simp only [enginePairDetail, pairDetail]
    exact hentry i j
  · simp only [enginePairDetail, pairDetail, matMean]
    rw [Finset.sum_congr rfl (fun i _ => Finset.sum_congr rfl
      (fun j _ => hentry i j))]
    rw [Finset.sum_comm]
    simp only [Finset.sum_neg_distrib]
    ring

/-- Invariant of the chain loop `loadAux`, by induction on the remaining
target list: on success, (1) the concatenated boundary ranges are exactly
the contiguous index interval starting at the running index and covering
the loaded records, (2) every entry has `start ≤ end`, (3) every entry
names a target chain, and (4) a target chain whose record list is empty
has no boundary entry. -/
lemma loadAux_ok_spec {α : Type} (model : List (Chain α)) (inc : Bool)
    (ts : List String) :
    ∀ (k : Nat) (recs : List (RepRec α)) (bnds : List BEntry),
      loadAux model inc ts k = .ok (recs, bnds) →
      (bnds.flatMap (fun b => List.range' b.2.1 (b.2.2 + 1 - b.2.1))
          = List.range' k recs.length)
      ∧ (∀ b ∈ bnds, b.2.1 ≤ b.2.2)
      ∧ (∀ b ∈ bnds, b.1 ∈ ts)
      ∧ (∀ tid ∈ ts, ∀ ch, findChain model tid = some ch →
          chainRecords inc ch = [] → ∀ b ∈ bnds, b.1 ≠ tid) := by
  induction ts with
  | nil =>
    intro k recs bnds h
    simp only [loadAux] at h
    cases h
    refine ⟨by simp, by simp, by simp, by simp⟩
  | cons tid rest ih =>
    intro k recs bnds h
    simp only [loadAux] at h
    split at h
    · simp at h
    · rename_i ch hfc
      split at h
      · simp at h
      · rename_i recs2 bnds2 hrec
        cases h
        obtain ⟨h1, h2, h3, h4⟩ :=
          ih (k + (chainRecords inc ch).length) recs2 bnds2 hrec
        refine ⟨?_, ?_, ?_, ?_⟩
        · rw [List.flatMap_append, h1, List.length_append]
          by_cases hz : (chainRecords inc ch).length = 0
          · simp [hz]
          · rw [if_neg hz]
            simp only [List.flatMap_cons, List.flatMap_nil, List.append_nil]
            have hlen : k + (chainRecords inc ch).length - 1 + 1 - k
                = (chainRecords inc ch).length := by omega
            rw [hlen]
            have hap := List.range'_append k (chainRecords inc ch).length
              recs2.length 1
            rw [one_mul, Nat.add_comm recs2.length] at hap
            exact hap
        · intro b hb
          rcases List.mem_append.1 hb with hb1 | hb2
          · by_cases hz : (chainRecords inc ch).length = 0
            · simp [hz] at hb1
            · rw [if_neg hz] at hb1
              simp at hb1
              subst hb1
              simp only []
              omega
          · exact h2 b hb2
        · intro b hb
          rcases List.mem_append.1 hb with hb1 | hb2
          · by_cases hz : (chainRecords inc ch).length = 0
            · simp [hz] at hb1
            · rw [if_neg hz] at hb1
              simp at hb1
              subst hb1
              simp
          · exact List.mem_cons_of_mem _ (h3 b hb2)
        · intro tid0 htid0 ch0 hfc0 hempty b hb
          rcases List.mem_append.1 hb with hb1 | hb2
          · by_cases hz : (chainRecords inc ch).length = 0
            · simp [hz] at hb1
            · rw [if_neg hz] at hb1
              simp at hb1
              subst hb1
              simp only []
              intro hcontra
              subst hcontra
              rw [hfc0] at hfc
              cases hfc
              exact hz (by rw [hempty]; rfl)
          · by_cases hmem : tid0 ∈ rest
            · exact h4 tid0 hmem ch0 hfc0 hempty b hb2
            · have : b.1 ∈ rest := h3 b hb2
              intro hcontra
              rw [hcontra] at this
              exact hmem this

/-- C5: on every successful structure load, the chain boundary entries are
inclusive 0-based ranges with `start ≤ end` whose concatenation in order
is exactly `[0, N-1]` over the flattened record list (so they are
contiguous, non-overlapping and complete), every entry names a requested
chain, and a requested chain whose surviving record list is empty
contributes no boundary entry (the code only prints a warning there). -/
theorem C5_boundary_invariant {α : Type} (model : List (Chain α))
    (targets : List String) (inc : Bool) (recs : List (RepRec α))
    (bnds : List BEntry)
    (h : load_representative_atoms model targets inc = .ok (recs, bnds)) :
    (bnds.flatMap (fun b => List.range' b.2.1 (b.2.2 + 1 - b.2.1))
        = List.range recs.length)
    ∧ (∀ b ∈ bnds, b.2.1 ≤ b.2.2)
    ∧ (∀ b ∈ bnds, b.1 ∈ targets)
    ∧ (∀ tid ∈ targets, ∀ ch, findChain model tid = some ch →
        chainRecords inc ch = [] → ∀ b ∈ bnds, b.1 ≠ tid) := by
  have haux : loadAux model inc targets 0 = .ok (recs, bnds) := by
    unfold load_representative_atoms at h
    split at h
    · simp at h
    · rename_i recs0 bnds0 heq
      split at h
      · simp at h
      · cases h
        exact heq
  obtain ⟨h1, h2, h3, h4⟩ := loadAux_ok_spec model inc targets 0 recs bnds haux
  exact ⟨by rw [h1, List.range_eq_range'], h2, h3, h4⟩

instance {ε δ : Type} [DecidableEq ε] [DecidableEq δ] :
    DecidableEq (Except ε δ) := fun a b =>
  match a, b with
  | .error x, .error y =>
    if h : x = y then isTrue (by rw [h]) else isFalse (by simp [h])
  | .error _, .ok _ => isFalse (by simp)
  | .ok _, .error _ => isFalse (by simp)
  | .ok x, .ok y =>
    if h : x = y then isTrue (by rw [h]) else isFalse (by simp [h])

/-! Concrete demonstration inputs.  `Unit` coordinates exercise the loaders
(whose control flow never reads a coordinate) with decidable equality;
`V3` inputs exercise the full engine. -/

/-- A CA atom with trivial coordinates. -/
def uAtomCA : Atom Unit := ⟨.CA, ()⟩

/-- A non-CA atom with trivial coordinates. -/
def uAtomO : Atom Unit := ⟨.other "O", ()⟩

/-- A standard amino-acid residue with a CA atom. -/
def uResAA (n : Int) : Residue Unit := ⟨" ", n, "", "GLY", true, true, [uAtomCA]⟩

/-- A residue with no atoms at all (it survives no filter). -/
def uResEmpty : Residue Unit := ⟨" ", 1, "", "UNK", false, false, []⟩

/-- A hetero (ligand) residue whose first atom is selected. -/
def uResLig : Residue Unit := ⟨"H_ZN", 1, "", "ZN", false, false, [uAtomO]⟩

/-- A three-chain model: chain A with two residues, chain B contributing
nothing, chain C with one ligand residue. -/
def uModel : List (Chain Unit) :=
  [⟨"A", [uResAA 1, uResAA 2]⟩, ⟨"B", [uResEmpty]⟩, ⟨"C", [uResLig]⟩]

/-- The records `uModel` loads for the request `["A", "C", "B"]`. -/
def uRecs : List (RepRec Unit) :=
  [(uAtomCA, ⟨"A", "GLY", 1, "", .Protein⟩),
   (uAtomCA, ⟨"A", "GLY", 2, "", .Protein⟩),
   (uAtomO, ⟨"C", "ZN", 1, "", .Ligand⟩)]

/-- The boundary index `uModel` produces: chain B is omitted. -/
def uBnds : List BEntry := [("A", 0, 1), ("C", 2, 2)]

/-- Witness for C5: a three-chain load (with one chain contributing
nothing) whose boundaries tile `[0, 2]` exactly. -/
theorem C5_boundary_invariant_witness :
    (load_representative_atoms uModel ["A", "C", "B"] false
        = .ok (uRecs, uBnds))
    ∧ ((uBnds.flatMap (fun b => List.range' b.2.1 (b.2.2 + 1 - b.2.1))
          = List.range uRecs.length)
      ∧ (∀ b ∈ uBnds, b.2.1 ≤ b.2.2)
      ∧ (∀ b ∈ uBnds, b.1 ∈ ["A", "C", "B"])
      ∧ (∀ tid ∈ ["A", "C", "B"], ∀ ch, findChain uModel tid = some ch →
          chainRecords false ch = [] → ∀ b ∈ uBnds, b.1 ≠ tid)) :=
  ⟨by decide,
    C5_boundary_invariant uModel ["A", "C", "B"] false uRecs uBnds (by decide)⟩

/-- The per-pair validation fails at the first mismatching chain pair,
naming that pair and both lengths. -/
lemma validateChainPairs_first_mismatch :
    ∀ (pre : List (BEntry × BEntry)) (pa pb : BEntry)
      (post : List (BEntry × BEntry)),
      (∀ q ∈ pre, blen q.1 = blen q.2) → blen pa ≠ blen pb →
      validateChainPairs (pre ++ (pa, pb) :: post)
        = .error (.seqLenMismatch pa.1 pb.1 (blen pa) (blen pb))
  | [], pa, pb, post, _, hmis => by
    simp only [List.nil_append, validateChainPairs, if_pos hmis]
  | (qa, qb) :: pre, pa, pb, post, hpre, hmis => by
    have hq : blen qa = blen qb := hpre (qa, qb) (List.mem_cons_self _ _)
    simp only [List.cons_append, validateChainPairs]
    rw [if_neg (not_ne_iff.mpr hq)]
    exact validateChainPairs_first_mismatch pre pa pb post
      (fun q hqmem => hpre q (List.mem_cons_of_mem _ hqmem)) hmis

/-- C1: when both structures load with the same number of non-empty
mapped chain pairs and some mapped pair has differing surviving residue
counts, the engine fails with the sequence-length-mismatch error naming
the first offending chain pair and both lengths.  The conclusion is the
error value of the whole engine run: the validation stage (engine stage 4)
precedes the distance-matrix stage (engine stage 7), so no distance
matrix is computed on this path. -/
theorem C1_seq_len_mismatch
    (modelA modelB : List (Chain V3)) (chainsA chainsB : List String)
    (region1 region2 : Option RegionInput)
    (regionPairs : Option RegionPairsInput) (inc : Bool)
    (recsA recsB : List (RepRec V3)) (bndA bndB : List BEntry)
    (pre : List (BEntry × BEntry)) (pa pb : BEntry)
    (post : List (BEntry × BEntry))
    (hlen : chainsA.length = chainsB.length)
    (hA : load_representative_atoms modelA chainsA inc = .ok (recsA, bndA))
    (hB : load_representative_atoms modelB chainsB inc = .ok (recsB, bndB))
    (hcnt : bndA.length = bndB.length)
    (hzip : bndA.zip bndB = pre ++ (pa, pb) :: post)
    (hpre : ∀ q ∈ pre, blen q.1 = blen q.2)
    (hmis : blen pa ≠ blen pb) :
    contact_map_diff_multimer modelA modelB chainsA chainsB region1 region2
        regionPairs inc
      = .error (.seqLenMismatch pa.1 pb.1 (blen pa) (blen pb)) := by
  unfold contact_map_diff_multimer
  rw [if_neg (not_ne_iff.mpr hlen)]
  simp only [hA, hB]
  rw [if_neg (not_ne_iff.mpr hcnt)]
  simp only [hzip, validateChainPairs_first_mismatch pre pa pb post hpre hmis]

/-- A CA atom at the origin (real coordinates). -/
def wAtomCA : Atom V3 := ⟨.CA, ((0 : ℝ), 0, 0)⟩

/-- A standard amino-acid residue with one CA atom (real coordinates). -/
def wAARes (n : Int) : Residue V3 := ⟨" ", n, "", "GLY", true, true, [wAtomCA]⟩

/-- A one-chain model with two residues. -/
def wModelA2 : List (Chain V3) := [⟨"A", [wAARes 1, wAARes 2]⟩]

/-- A one-chain model with one residue. -/
def wModelB1 : List (Chain V3) := [⟨"A", [wAARes 1]⟩]

/-- Records loaded from `wModelA2`. -/
def wRecsA : List (RepRec V3) :=
  [(wAtomCA, ⟨"A", "GLY", 1, "", .Protein⟩),
   (wAtomCA, ⟨"A", "GLY", 2, "", .Protein⟩)]

/-- Records loaded from `wModelB1`. -/
def wRecsB : List (RepRec V3) :=
  [(wAtomCA, ⟨"A", "GLY", 1, "", .Protein⟩)]

/-- Witness for C1: chain A of structure A has 2 surviving residues and
its mapped chain of structure B has 1, and the engine run returns exactly
the mismatch error naming the pair and both lengths. -/
theorem C1_seq_len_mismatch_witness :
    (load_representative_atoms wModelA2 ["A"] false
        = .ok (wRecsA, [("A", 0, 1)]))
    ∧ (load_representative_atoms wModelB1 ["A"] false
        = .ok (wRecsB, [("A", 0, 0)]))
    ∧ (blen ("A", 0, 1) ≠ blen ("A", 0, 0))
    ∧ contact_map_diff_multimer wModelA2 wModelB1 ["A"] ["A"]
        none none none false
      = .error (.seqLenMismatch "A" "A" 2 1) :=
  ⟨rfl, rfl, by decide,
    C1_seq_len_mismatch wModelA2 wModelB1 ["A"] ["A"] none none none false
      wRecsA wRecsB [("A", 0, 1)] [("A", 0, 0)]
      [] ("A", 0, 1) ("A", 0, 0) []
      rfl rfl rfl rfl rfl (by simp) (by decide)⟩

/-- On the comparison path, the chain loop fails with the chain-not-found
error at the first requested chain missing from the model. -/
lemma loadAux_error_first_missing {α : Type} (model : List (Chain α))
    (inc : Bool) :
    ∀ (pre : List String) (tid : String) (post : List String) (k : Nat),
      (∀ t ∈ pre, (findChain model t).isSome) →
      findChain model tid = none →
      loadAux model inc (pre ++ tid :: post) k
        = .error (.chainNotFound tid)
  | [], tid, post, k, _, hmiss => by
    simp only [List.nil_append, loadAux, hmiss]
  | t :: pre, tid, post, k, hpre, hmiss => by
    have ht := hpre t (List.mem_cons_self _ _)
    obtain ⟨ch, hch⟩ := Option.isSome_iff_exists.mp ht
    have ih := loadAux_error_first_missing model inc pre tid post
      (k + (chainRecords inc ch).length)
      (fun s hs => hpre s (List.mem_cons_of_mem _ hs)) hmiss
    simp only [List.cons_append, loadAux, hch, List.append_eq, ih]

/-- C9 (amended): a requested chain absent from the model fails the
comparison-path load with the chain-not-found error (the
`StructureLoadError` of the specification), while the visualization-path
load silently skips absent chains and succeeds whenever anything at all
is collected. -/
theorem C9_missing_chain_amended :
    (∀ (α : Type) (model : List (Chain α)) (inc : Bool) (pre : List String)
      (tid : String) (post : List String),
      (∀ t ∈ pre, (findChain model t).isSome) →
      findChain model tid = none →
      load_representative_atoms model (pre ++ tid :: post) inc
        = .error (.chainNotFound tid))
    ∧ (∀ (α : Type) (model : List (Chain α))
        (targets : Option (List String)),
      visCollect model targets ≠ [] →
      vis_load_representative_atoms model targets
        = .ok (visCollect model targets, visFoundChains model targets)) := by
  constructor
  · intro α model inc pre tid post hpre hmiss
    unfold load_representative_atoms
    simp only [loadAux_error_first_missing model inc pre tid post 0 hpre hmiss]
  · intro α model targets hne
    unfold vis_load_representative_atoms
    rw [if_neg (by simpa [List.isEmpty_iff] using hne)]

/-- A one-residue chain A over trivial coordinates. -/
def uChainA : Chain Unit := ⟨"A", [uResAA 1]⟩

/-- Counterexample for C9: requesting chains `A` and `Z` from a model that
only has chain A makes the visualization-path loader succeed, silently
omitting `Z`, instead of failing with a structure-load error. -/
theorem C9_missing_chain_counterexample :
    findChain [uChainA] "Z" = none
    ∧ vis_load_representative_atoms [uChainA] (some ["A", "Z"])
        = .ok ([⟨(), "A", .Protein, 1⟩], ["A"]) := by decide

/-- Witness for C9 (amended): the comparison loader fails on a missing
chain; the visualization loader succeeds on a non-empty collection. -/
theorem C9_missing_chain_amended_witness :
    (findChain ([] : List (Chain Unit)) "Q" = none)
    ∧ (load_representative_atoms ([] : List (Chain Unit)) ["Q"] false
        = .error (.chainNotFound "Q"))
    ∧ (visCollect [uChainA] (some ["A"]) ≠ [])
    ∧ (vis_load_representative_atoms [uChainA] (some ["A"])
        = .ok (visCollect [uChainA] (some ["A"]),
               visFoundChains [uChainA] (some ["A"]))) :=
  ⟨by decide,
    C9_missing_chain_amended.1 Unit [] false [] "Q" [] (by simp) (by decide),
    by decide,
    C9_missing_chain_amended.2 Unit [uChainA] (some ["A"]) (by decide)⟩

/-- C2 (amended): the representative-atom priority as implemented — an
amino-acid residue with a CA atom contributes it tagged Protein; an
amino-acid residue without a CA atom contributes nothing (it is dropped,
not passed to the Ligand rule); a non-amino-acid residue with a C1-prime
atom contributes it tagged by residue name; a non-amino-acid residue
without a C1-prime atom contributes its first atom tagged Ligand when it
has any atom, and nothing otherwise. -/
theorem C2_representative_atom_priority {α : Type} (inc : Bool)
    (res : Residue α) (hw : res.hetfield ≠ "W") :
    (∀ a, resIsAA inc res = true →
      res.atoms.find? (fun x => x.name = AtomName.CA) = some a →
      classifyRes inc res = some (a, RType.Protein))
    ∧ (resIsAA inc res = true →
      res.atoms.find? (fun x => x.name = AtomName.CA) = none →
      classifyRes inc res = none)
    ∧ (∀ a, resIsAA inc res = false →
      res.atoms.find? (fun x => x.name = AtomName.C1p) = some a →
      classifyRes inc res = some (a, nucType res.resname.trim))
    ∧ (∀ a rest, resIsAA inc res = false →
      res.atoms.find? (fun x => x.name = AtomName.C1p) = none →
      res.atoms = a :: rest →
      classifyRes inc res = some (a, RType.Ligand))
    ∧ (resIsAA inc res = false → res.atoms = [] →
      classifyRes inc res = none) := by
  refine ⟨?_, ?_, ?_, ?_, ?_⟩
  · intro a h1 h2
    simp [classifyRes, hw, h1, h2]
  · intro h1 h2
    simp [classifyRes, hw, h1, h2]
  · intro a h1 h2
    simp [classifyRes, hw, h1, h2]
  · intro a rest h1 h2 h3
    rw [h3] at h2
    simp [classifyRes, hw, h1, h2, h3]
  · intro h1 h2
    simp [classifyRes, hw, h1, h2]

/-- A standard amino-acid residue that lacks a CA atom (its only atom is
a backbone nitrogen). -/
def aaNoCA : Residue Unit := ⟨" ", 1, "", "ALA", true, true, [⟨.other "N", ()⟩]⟩

/-- Counterexample for C2: a non-water standard amino-acid residue with a
non-empty atom list but no CA atom contributes no record at all — it is
not selected under the Ligand rule as the claim states. -/
theorem C2_representative_atom_counterexample :
    aaNoCA.hetfield ≠ "W"
    ∧ resIsAA false aaNoCA = true
    ∧ aaNoCA.atoms = [⟨.other "N", ()⟩]
    ∧ classifyRes false aaNoCA = none
    ∧ classifyRes false aaNoCA ≠ some (⟨.other "N", ()⟩, RType.Ligand) := by
  decide

/-- A standard amino-acid residue with a CA atom (trivial coordinates). -/
def protRes : Residue Unit := ⟨" ", 1, "", "ALA", true, true, [⟨.CA, ()⟩]⟩

/-- C8 (amended): when neither `region_pairs` nor `region_1` is supplied,
region resolution yields the single pair `((0, N-1), (0, N-1))` with the
internal `is_default_region` flag set to `true`, and the pair list of a
successful engine run is exactly that default pair over the loaded
residue count; the flag itself is internal (it only suppresses the
region-overlay drawing) and is not part of the returned result. -/
theorem C8_default_region (modelA modelB : List (Chain V3))
    (chainsA chainsB : List String) (region2 : Option RegionInput)
    (inc : Bool) (res : CompareResult)
    (h : contact_map_diff_multimer modelA modelB chainsA chainsB
        none region2 none inc = .ok res) :
    res.pairs = [((0, (res.A_N : Int) - 1), (0, (res.A_N : Int) - 1))]
    ∧ (∀ (r2 : Option RegionInput) (bndA bndB : List BEntry) (N : Nat),
        resolveRegionPairs none none r2 bndA bndB N
          = .ok ([((0, (N : Int) - 1), (0, (N : Int) - 1))], true)) := by
  refine ⟨?_, fun r2 bndA bndB N => rfl⟩
  unfold contact_map_diff_multimer at h
  split at h
  · exact absurd h (by simp)
  split at h
  · exact absurd h (by simp)
  split at h
  · exact absurd h (by simp)
  split at h
  · exact absurd h (by simp)
  split at h
  · exact absurd h (by simp)
  split at h
  · exact absurd h (by simp)
  dsimp only [] at h
  split at h
  · exact absurd h (by simp)
  rename_i _x pairs isDef hresolve
  split at h
  · exact absurd h (by simp)
  split at h
  · exact absurd h (by simp)
  cases h
  simp only [resolveRegionPairs] at hresolve
  cases hresolve
  rfl

/-- Counterexample for C8: the returned result dictionary has exactly the
keys `A`, `B`, `Dist_diff`, `pairs`, `Pairs_detail` — no default-region
flag is included in it. -/
theorem C8_default_region_counterexample :
    contact_result_keys = ["A", "B", "Dist_diff", "pairs", "Pairs_detail"]
    ∧ "is_default_region" ∉ contact_result_keys
    ∧ "default_region" ∉ contact_result_keys := by decide

/-- A placeholder result used only to destructure an `Except`. -/
noncomputable def emptyCompareResult : CompareResult :=
  ⟨0, 0, fun _ _ => 0, fun _ _ => 0, [], [], fun _ _ => 0, fun _ _ => 0,
    [], []⟩

/-- A concrete engine run with no region arguments. -/
noncomputable def demoDefaultRun : Except CompareError CompareResult :=
  contact_map_diff_multimer wModelA2 wModelA2 ["A"] ["A"] none none none false

/-- The result of `demoDefaultRun` (which succeeds). -/
noncomputable def demoDefaultRes : CompareResult :=
  demoDefaultRun.toOption.getD emptyCompareResult

/-- Witness for C8 (amended): the concrete no-region engine run succeeds
and its pair list is the default full-structure pair. -/
theorem C8_default_region_witness :
    demoDefaultRun = .ok demoDefaultRes
    ∧ (demoDefaultRes.pairs
        = [((0, (demoDefaultRes.A_N : Int) - 1),
            (0, (demoDefaultRes.A_N : Int) - 1))]
      ∧ (∀ (r2 : Option RegionInput) (bndA bndB : List BEntry) (N : Nat),
          resolveRegionPairs none none r2 bndA bndB N
            = .ok ([((0, (N : Int) - 1), (0, (N : Int) - 1))], true))) :=
  have hok : demoDefaultRun = .ok demoDefaultRes := rfl
  ⟨hok, C8_default_region wModelA2 wModelA2 ["A"] ["A"] none false
    demoDefaultRes hok⟩

/-- The last element (via `getD`) of a non-empty list is a member. -/
lemma getD_last_mem {α : Type} (d : α) :
    ∀ (l : List α), l ≠ [] → l.getD (l.length - 1) d ∈ l
  | [], h => absurd rfl h
  | [a], _ => by simp
  | a :: b :: t, _ => by
    have ih := getD_last_mem d (b :: t) (by simp)
    simp only [List.length_cons]
    rw [show t.length + 1 + 1 - 1 = t.length + 1 from rfl, List.getD_cons_succ]
    exact List.mem_cons_of_mem _ (by simpa using ih)

/-- In a list sorted by `≤`, every member is at most the last element. -/
lemma sorted_le_getD_last {α : Type} [LinearOrder α] (d : α) :
    ∀ (l : List α), l.Sorted (· ≤ ·) → ∀ x ∈ l, x ≤ l.getD (l.length - 1) d
  | [], _, x, hx => absurd hx (by simp)
  | [a], _, x, hx => by
    simp only [List.mem_singleton] at hx
    subst hx
    simp [List.getD]
  | a :: b :: t2, hs, x, hx => by
    have hs' : (b :: t2).Sorted (· ≤ ·) := hs.of_cons
    have hrel := (List.sorted_cons.mp hs).1
    have ih := sorted_le_getD_last d (b :: t2) hs'
    simp only [List.length_cons]
    rw [show t2.length + 1 + 1 - 1 = t2.length + 1 from rfl,
      List.getD_cons_succ]
    have hlast_mem : (b :: t2).getD ((b :: t2).length - 1) d ∈ b :: t2 :=
      getD_last_mem d (b :: t2) (by simp)
    rcases List.mem_cons.mp hx with rfl | hx2
    · exact hrel _ (by simpa using hlast_mem)
    · simpa using ih x hx2

/-- At percentile 100 the interpolation degenerates to the last element of
the sorted valid entries: the true maximum of the non-NaN entries. -/
lemma nanpercentile_100_max {α : Type} [LinearOrderedField α] [FloorRing α]
    (xs : List (Option α)) (h : xs.filterMap id ≠ []) :
    nanpercentile xs 100 ∈ xs.filterMap id
    ∧ ∀ x ∈ xs.filterMap id, x ≤ nanpercentile xs 100 := by
  have hperm : ((xs.filterMap id).insertionSort (· ≤ ·)).Perm
      (xs.filterMap id) := List.perm_insertionSort _ _
  set v := (xs.filterMap id).insertionSort (· ≤ ·) with hv
  have hvne : v ≠ [] := by
    intro hcon
    apply h
    have hlen0 := hperm.length_eq
    rw [hcon] at hlen0
    exact List.length_eq_zero.mp hlen0.symm
  have hlen : 1 ≤ v.length := by
    cases hv2 : v with
    | nil => exact absurd hv2 hvne
    | cons a t => simp
  have hval : nanpercentile xs 100 = v.getD (v.length - 1) 0 := by
    simp only [nanpercentile]
    rw [← hv]
    rw [if_neg (by omega)]
    have h100 : ((v.length : α) - 1) * 100 / 100 = (v.length : α) - 1 := by
      field_simp
    rw [h100]
    have hfl : ⌊((v.length : α) - 1)⌋ = (v.length : ℤ) - 1 := by
      have hsub := Int.floor_sub_int ((v.length : α)) (1 : ℤ)
      simp only [Int.floor_natCast, Int.cast_one] at hsub
      exact hsub
    rw [hfl]
    have hfrac : ((v.length : α) - 1) - (((v.length : ℤ) - 1 : ℤ) : α) = 0 := by
      push_cast
      ring
    rw [hfrac]
    have hk : ((v.length : ℤ) - 1).toNat = v.length - 1 := by omega
    rw [hk]
    simp
  constructor
  · rw [hval]
    exact hperm.mem_iff.mp (getD_last_mem 0 v hvne)
  · intro x hx
    rw [hval]
    exact sorted_le_getD_last 0 v (List.sorted_insertionSort _ _) x
      (hperm.mem_iff.mpr hx)

/-- C6: the scale normalizer — an explicit override bound always wins;
with no override the single display bound is the max of the two matrix
percentiles and the zero-centered difference bound is the percentile of
the absolute values of the concatenated difference matrices; percentile
100 is the true maximum of the valid entries; NaN (`none`) entries are
ignored by the percentile. -/
theorem C6_scale_normalizer {α : Type} [LinearOrderedField α] [FloorRing α] :
    (∀ (p v : α) (dA dB : List (Option α)), vmaxUse (some v) p dA dB = v)
    ∧ (∀ (p : α) (dA dB : List (Option α)),
        vmaxUse none p dA dB
          = max (nanpercentile dA p) (nanpercentile dB p))
    ∧ (∀ (p v : α) (dAB dBA : List (Option α)), vdiffUse (some v) p dAB dBA = v)
    ∧ (∀ (p : α) (dAB dBA : List (Option α)),
        vdiffUse none p dAB dBA
          = nanpercentile ((dAB ++ dBA).map (Option.map (fun x => |x|))) p)
    ∧ (∀ xs : List (Option α), xs.filterMap id ≠ [] →
        nanpercentile xs 100 ∈ xs.filterMap id
        ∧ ∀ x ∈ xs.filterMap id, x ≤ nanpercentile xs 100)
    ∧ (∀ (xs : List (Option α)) (p : α),
        nanpercentile (none :: xs) p = nanpercentile xs p) :=
  ⟨fun _ _ _ _ => rfl, fun _ _ _ => rfl, fun _ _ _ _ => rfl, fun _ _ _ => rfl,
    fun xs h => nanpercentile_100_max xs h,
    fun xs p => by simp [nanpercentile]⟩

/-- Witness for C6: percentile 100 of `[some 1, none, some 3]` is its
maximum valid entry, and an explicit override of 7 wins. -/
theorem C6_scale_normalizer_witness :
    (([some (1 : ℚ), none, some 3].filterMap id) ≠ [])
    ∧ (nanpercentile [some (1 : ℚ), none, some 3] 100
        ∈ [some (1 : ℚ), none, some 3].filterMap id
      ∧ ∀ x ∈ [some (1 : ℚ), none, some 3].filterMap id,
          x ≤ nanpercentile [some (1 : ℚ), none, some 3] 100)
    ∧ vmaxUse (some (7 : ℚ)) 95 [] [] = 7 :=
  ⟨by decide, (@C6_scale_normalizer ℚ _ _).2.2.2.2.1 _ (by decide),
    (@C6_scale_normalizer ℚ _ _).1 95 7 [] []⟩

/-- A demonstration colormap lookup: only `"tab10"` is known, and its
sample `i` is the string `hue<i>`. -/
def demoGetCmap : String → Option (Nat → Nat → String) :=
  fun s => if s = "tab10" then some (fun _ i => "hue" ++ toString i)
           else none

/-- C7 (evaluated against the code): the value-type inference only ever
produces `"numerical"` or `"categorical"`, so the category-palette block
of `_process_group` — guarded by `track_val_type == "str"` — is dead code
and the color resolution is the identity on the incoming track color; in
particular a categorical track whose caller supplied the colormap name
`"tab10"` gets back the raw name `"tab10"` instead of a per-category
color mapping, while the same block run under the literal `"str"` tag
(what the guard was evidently meant to match) does produce the
evenly-sampled per-category mapping in sorted category order. -/
theorem C7_categorical_colormap_dead_branch :
    (∀ vals : List BedVal,
      trackValType vals = "numerical" ∨ trackValType vals = "categorical")
    ∧ (∀ (getCmap : String → Option (Nat → Nat → String))
        (vals : List BedVal) (tc : TrackColor) (cats : List String),
        processGroupColor getCmap (trackValType vals) tc cats = tc)
    ∧ (∀ (vc : String → Bool) (dp : Nat → String) (s tn : String) (i : Nat),
        thisTrackColor vc dp (some (.inl s)) tn "categorical" i = .name s)
    ∧ trackValType [.text "polar"] = "categorical"
    ∧ processGroupColor demoGetCmap (trackValType [.text "polar"])
        (.name "tab10") ["polar"] = .name "tab10"
    ∧ processGroupColor demoGetCmap "str" (.name "tab10") ["polar"]
        = .perCat [("polar", "hue0")] := by
  have htype : ∀ vals : List BedVal,
      trackValType vals = "numerical" ∨ trackValType vals = "categorical" := by
    intro vals
    unfold trackValType
    by_cases hall : vals.all
        (fun v => match v with | .num _ => true | .text _ => false)
    · left; rw [if_pos hall]
    · right; rw [if_neg hall]
  refine ⟨htype, ?_, ?_, by decide, by decide, by decide⟩
  · intro getCmap vals tc cats
    rcases htype vals with hv | hv <;> rw [hv] <;> simp [processGroupColor]
  · intro vc dp s tn i
    simp [thisTrackColor]

/-- Witness for C2 (amended): the Protein rule fires on a residue with a
CA atom, and the drop behavior fires on `aaNoCA`. -/
theorem C2_representative_atom_priority_witness :
    (protRes.hetfield ≠ "W")
    ∧ classifyRes false protRes = some (⟨.CA, ()⟩, RType.Protein)
    ∧ classifyRes false aaNoCA = none :=
  ⟨by decide,
    (C2_representative_atom_priority false protRes (by decide)).1
      ⟨.CA, ()⟩ (by decide) (by decide),
    (C2_representative_atom_priority false aaNoCA (by decide)).2.1
      (by decide) (by decide)⟩

end AF3SeqVis
